import Mathlib

/-!
Shallow embedding of the ecomfy-website backend core (auth gate, login/register
handlers, catalog filtering, order placement) and of the client cart store.

Modelling conventions:
- `server/routes.ts` (src/unnamed/part_000) and `server/storage.ts`
  (src/unnamed/part_001) are embedded as pure functions over an explicit
  `Store` state.  Database-generated ids (`gen_random_uuid()`) are modelled by
  a counter `Store.nextId`; `createdAt` timestamps are not observed by any
  claim and are omitted from the row types.
- External collaborators (bcrypt, jsonwebtoken) are parameters of an `Env`
  record: `verify` models `jwt.verify` (returns the embedded userId, or `none`
  when verification throws), `hash` models `bcrypt.hash`, `compare` models
  `bcrypt.compare`, `sign` models `jwt.sign`.
- Nullable database columns are `Option` fields; SQL decimal values that the
  code compares numerically (`products.price` and the price filters) are `Rat`;
  decimal values that the code only passes through as strings
  (`orders.totalPrice`, `orderItems.price`, produced by `.toString()`) are
  kept as the supplied strings.
-/

namespace Ecomfy

/-- Row of the `users` table (`shared/schema.ts`), `createdAt` omitted. -/
structure User where
  id : String
  username : String
  email : String
  password : String
  role : String
  deriving Repr, DecidableEq

/-- Row of the `products` table: `description`, `categoryId`, `rating`,
`reviewCount`, `isActive` are nullable columns; `price` is a NOT NULL decimal
compared numerically by the filter queries, modelled as `Rat`. -/
structure Product where
  id : String
  name : String
  description : Option String
  price : Rat
  image : String
  categoryId : Option String
  stock : Int
  rating : Option String
  reviewCount : Option Int
  isActive : Option Bool
  deriving Repr, DecidableEq

/-- Row of the `orders` table. `totalPrice` is the string the handler stores
via `totalPrice.toString()`. -/
structure Order where
  id : String
  userId : String
  totalPrice : String
  status : String
  customerEmail : Option String
  deriving Repr, DecidableEq

/-- Row of the `order_items` table. `price` is the string the handler stores
via `item.price.toString()`. -/
structure OrderItemRow where
  id : String
  orderId : String
  productId : String
  quantity : Int
  price : String
  deriving Repr, DecidableEq

/-- The relational store backing `DbStorage`, with a counter standing in for
`gen_random_uuid()` id generation. -/
structure Store where
  users : List User
  products : List Product
  orders : List Order
  orderItems : List OrderItemRow
  nextId : Nat
  deriving Repr, DecidableEq

/-- Model of a database-generated unique id. -/
def genId (n : Nat) : String := "id-" ++ toString n

/-- External collaborators of the routes: jsonwebtoken and bcryptjs. -/
structure Env where
  verify : String → Option String
  sign : String → String
  hash : String → String
  compare : String → String → Bool

/-- `DbStorage.getUser`: select by id, `undefined` when absent. -/
def getUser (st : Store) (id : String) : Option User :=
  st.users.find? (fun u => u.id == id)

/-- `DbStorage.getUserByEmail`. -/
def getUserByEmail (st : Store) (email : String) : Option User :=
  st.users.find? (fun u => u.email == email)

/-- `DbStorage.getUserByUsername`. -/
def getUserByUsername (st : Store) (username : String) : Option User :=
  st.users.find? (fun u => u.username == username)

/-- JS `x || "user"`: a missing or empty (falsy) role defaults to `"user"`. -/
def jsOrUser (r : Option String) : String :=
  match r with
  | none => "user"
  | some s => if s = "" then "user" else s

/-- Input of `DbStorage.createUser` (`InsertUser`). -/
structure InsertUser where
  username : String
  email : String
  password : String
  role : Option String
  deriving Repr, DecidableEq

/-- `DbStorage.createUser`: hash the password, default the role, insert. -/
def createUser (env : Env) (st : Store) (iu : InsertUser) : Store × User :=
  let u : User :=
    { id := genId st.nextId
      username := iu.username
      email := iu.email
      password := env.hash iu.password
      role := jsOrUser iu.role }
  ({ st with users := st.users ++ [u], nextId := st.nextId + 1 }, u)

/-- JS `String.prototype.split(' ')` on the character list: split at every
single space, keeping empty segments. -/
def jsSplitSpace : List Char → List (List Char)
  | [] => [[]]
  | c :: cs =>
    let r := jsSplitSpace cs
    if c = ' ' then [] :: r
    else
      match r with
      | [] => [[c]]
      | w :: ws => (c :: w) :: ws

/-- Token extraction in `authenticateToken`:
`authHeader && authHeader.split(' ')[1]` — second space-separated word of the
`Authorization` header; a missing header, a header with no second word, or an
empty second word (all falsy) yield no token. -/
def extractToken (authHeader : Option String) : Option String :=
  match authHeader with
  | none => none
  | some h =>
    match (jsSplitSpace h.data).get? 1 with
    | none => none
    | some t => if t.isEmpty then none else some (String.mk t)

/-- HTTP response body payloads used by the protected routes. -/
inductive RespBody where
  | msg (m : String)
  | order (o : Order)
  | product (p : Product)
  deriving Repr, DecidableEq

/-- HTTP response: status code and JSON body. -/
structure Response where
  status : Nat
  body : RespBody
  deriving Repr, DecidableEq

/-- Outcome of the `authenticateToken` middleware: an HTTP rejection, or the
resolved user handed to the wrapped handler. -/
inductive AuthOutcome where
  | reject (status : Nat) (message : String)
  | allow (u : User)
  deriving Repr, DecidableEq

/-- `authenticateToken` middleware: no token → 401 "Access token required";
`jwt.verify` throws → 403 "Invalid token"; verified but no matching user →
401 "Invalid token"; otherwise the resolved user. -/
def authenticateToken (env : Env) (st : Store) (authHeader : Option String) :
    AuthOutcome :=
  match extractToken authHeader with
  | none => .reject 401 "Access token required"
  | some token =>
    match env.verify token with
    | none => .reject 403 "Invalid token"
    | some userId =>
      match getUser st userId with
      | none => .reject 401 "Invalid token"
      | some u => .allow u

/-- A route wrapped by `authenticateToken` alone: the handler runs only when
the gate resolves a user. -/
def runProtected (env : Env) (st : Store) (authHeader : Option String)
    (handler : User → Store → Store × Response) : Store × Response :=
  match authenticateToken env st authHeader with
  | .reject s m => (st, ⟨s, .msg m⟩)
  | .allow u => handler u st

/-- `requireAdmin` middleware composed after `authenticateToken`: rejects with
403 "Admin access required" unless the resolved user's role is `"admin"`. -/
def runAdminProtected (env : Env) (st : Store) (authHeader : Option String)
    (handler : User → Store → Store × Response) : Store × Response :=
  runProtected env st authHeader (fun u s =>
    if u.role ≠ "admin" then (s, ⟨403, .msg "Admin access required"⟩)
    else handler u s)

/-! ### Auth routes: login and register (`server/routes.ts`) -/

/-- Public user projection returned by the auth routes. -/
structure PublicUser where
  id : String
  username : String
  email : String
  role : String
  deriving Repr, DecidableEq

/-- Result of the login / register handlers. -/
inductive AuthResult where
  | err (status : Nat) (message : String)
  | ok (user : PublicUser) (token : String)
  deriving Repr, DecidableEq

/-- `POST /api/auth/login` handler body after `loginSchema.parse`: look the
user up by email; absent → 400 "Invalid credentials"; present but
`bcrypt.compare` fails → the same 400 "Invalid credentials"; otherwise sign a
token and return the public user. -/
def login (env : Env) (st : Store) (email password : String) : AuthResult :=
  match getUserByEmail st email with
  | none => .err 400 "Invalid credentials"
  | some user =>
    if env.compare password user.password then
      .ok ⟨user.id, user.username, user.email, user.role⟩ (env.sign user.id)
    else
      .err 400 "Invalid credentials"

/-- Request body of `POST /api/auth/register` (fields of `registerSchema`). -/
structure RegisterBody where
  username : String
  email : String
  password : String
  confirmPassword : String
  role : Option String
  deriving Repr, DecidableEq

/-- Zod message of `z.string().min(6)`. -/
def minLenMsg : String := "String must contain at least 6 character(s)"

/-- Zod message of the `registerSchema` refinement. -/
def mismatchMsg : String := "Passwords don't match"

/-- `registerSchema.parse`: object fields first (`confirmPassword` carries
`min(6)`), then the refinement `password === confirmPassword`; returns the
first failing message (`error.errors[0].message`), or `none` on success. -/
def registerParse (b : RegisterBody) : Option String :=
  if b.confirmPassword.length < 6 then some minLenMsg
  else if b.password ≠ b.confirmPassword then some mismatchMsg
  else none

/-- `POST /api/auth/register` handler: parse, check email uniqueness, then
username uniqueness, then create the user and sign a token. -/
def register (env : Env) (st : Store) (b : RegisterBody) : Store × AuthResult :=
  match registerParse b with
  | some m => (st, .err 400 m)
  | none =>
    match getUserByEmail st b.email with
    | some _ => (st, .err 400 "User already exists")
    | none =>
      match getUserByUsername st b.username with
      | some _ => (st, .err 400 "Username already taken")
      | none =>
        let (st1, user) := createUser env st
          { username := b.username
            email := b.email
            password := b.password
            role := some (jsOrUser b.role) }
        (st1, .ok ⟨user.id, user.username, user.email, user.role⟩ (env.sign user.id))

/-! ### Catalog: `DbStorage.createProduct` and `DbStorage.getProducts` -/

/-- Input of `DbStorage.createProduct` (`InsertProduct` over
`insertProductSchema`, which does not omit `rating` / `reviewCount` /
`isActive`, so a caller may supply them). -/
structure InsertProduct where
  name : String
  description : Option String
  price : Rat
  image : String
  categoryId : Option String
  stock : Option Int
  rating : Option String
  reviewCount : Option Int
  isActive : Option Bool
  deriving Repr, DecidableEq

/-- `DbStorage.createProduct`: spread the input, then override `stock ?? 0`,
`rating: "0.0"`, `reviewCount: 0`, `isActive: true` (the literal fields come
after the spread, so they always win). -/
def createProduct (st : Store) (p : InsertProduct) : Store × Product :=
  let row : Product :=
    { id := genId st.nextId
      name := p.name
      description := p.description
      price := p.price
      image := p.image
      categoryId := p.categoryId
      stock := p.stock.getD 0
      rating := some "0.0"
      reviewCount := some 0
      isActive := some true }
  ({ st with products := st.products ++ [row], nextId := st.nextId + 1 }, row)

/-- Whether `needle` occurs as a contiguous run at the head of `hay`. -/
def charsStartWith : List Char → List Char → Bool
  | [], _ => true
  | _ :: _, [] => false
  | a :: as, b :: bs => a == b && charsStartWith as bs

/-- Whether `needle` occurs as a contiguous run anywhere in `hay`. -/
def charsHaveSub (needle : List Char) : List Char → Bool
  | [] => needle.isEmpty
  | b :: bs => charsStartWith needle (b :: bs) || charsHaveSub needle bs

/-- SQL `hay ILIKE '%needle%'`: case-insensitive substring match. -/
def containsCI (hay needle : String) : Bool :=
  charsHaveSub needle.toLower.data hay.toLower.data

/-- The search condition of `getProducts`:
`ilike(name, %s%) OR ilike(description, %s%)`; `ILIKE` on a NULL description
is not true. -/
def searchCond (s : String) (p : Product) : Bool :=
  containsCI p.name s ||
    (match p.description with
     | none => false
     | some d => containsCI d s)

/-- The optional filters accepted by `DbStorage.getProducts`. -/
structure ProductFilters where
  categoryId : Option String
  search : Option String
  minPrice : Option Rat
  maxPrice : Option Rat
  deriving Repr, DecidableEq

/-- The `conditions` array built by `DbStorage.getProducts`: the base
`isActive = true` predicate, then one condition per provided filter.
`categoryId` and `search` are guarded by JS truthiness (`filters?.categoryId`),
so an empty string adds no condition; the price bounds are guarded by
`!== undefined`. -/
def productConditions (f : ProductFilters) : List (Product → Bool) :=
  let base : List (Product → Bool) := [fun p => p.isActive == some true]
  let catConds : List (Product → Bool) :=
    match f.categoryId with
    | some cid => if cid = "" then [] else [fun p => p.categoryId == some cid]
    | none => []
  let searchConds : List (Product → Bool) :=
    match f.search with
    | some s => if s = "" then [] else [fun p => searchCond s p]
    | none => []
  let minConds : List (Product → Bool) :=
    match f.minPrice with
    | some m => [fun p => decide (m ≤ p.price)]
    | none => []
  let maxConds : List (Product → Bool) :=
    match f.maxPrice with
    | some m => [fun p => decide (p.price ≤ m)]
    | none => []
  base ++ catConds ++ searchConds ++ minConds ++ maxConds

/-- `DbStorage.getProducts`: select the products satisfying
`and(...conditions)`. -/
def getProducts (st : Store) (f : ProductFilters) : List Product :=
  st.products.filter (fun p => (productConditions f).all (fun c => c p))

/-! ### Order placement: `POST /api/orders` -/

/-- Input of `DbStorage.createOrder` (`InsertOrder`): `status` and
`customerEmail` are optional and defaulted by the storage layer. -/
structure InsertOrder where
  userId : String
  totalPrice : String
  status : Option String
  customerEmail : Option String
  deriving Repr, DecidableEq

/-- `DbStorage.createOrder`: insert with `status ?? "pending"` and
`customerEmail ?? null`, returning the new row. -/
def createOrder (st : Store) (io : InsertOrder) : Store × Order :=
  let row : Order :=
    { id := genId st.nextId
      userId := io.userId
      totalPrice := io.totalPrice
      status := io.status.getD "pending"
      customerEmail := io.customerEmail }
  ({ st with orders := st.orders ++ [row], nextId := st.nextId + 1 }, row)

/-- Input of `DbStorage.createOrderItem` (`InsertOrderItem`). -/
structure InsertOrderItem where
  orderId : String
  productId : String
  quantity : Int
  price : String
  deriving Repr, DecidableEq

/-- `DbStorage.createOrderItem`: insert the row, returning it. -/
def createOrderItem (st : Store) (it : InsertOrderItem) : Store × OrderItemRow :=
  let row : OrderItemRow :=
    { id := genId st.nextId
      orderId := it.orderId
      productId := it.productId
      quantity := it.quantity
      price := it.price }
  ({ st with orderItems := st.orderItems ++ [row], nextId := st.nextId + 1 }, row)

/-- One element of the request's `items` array: `{productId, quantity, price}`.
`price` is kept as the string the handler stores via `item.price.toString()`. -/
structure ItemInput where
  productId : String
  quantity : Int
  price : String
  deriving Repr, DecidableEq

/-- The `items` field of the `POST /api/orders` body, as tested by
`!items || !Array.isArray(items) || items.length === 0`: it may be absent
(or falsy), a non-array value, or an array. -/
inductive ItemsField where
  | missing
  | notAnArray
  | array (l : List ItemInput)
  deriving Repr, DecidableEq

/-- Body of `POST /api/orders`. `totalPrice` is the caller-supplied total as
stored via `totalPrice.toString()`. -/
structure OrdersBody where
  items : ItemsField
  totalPrice : String
  deriving Repr, DecidableEq

/-- The `POST /api/orders` handler body (after `authenticateToken` resolved
`user`): reject 400 when items are missing / not an array / empty; otherwise
create the order header, then one order item per input item in input order,
and respond with the created order. -/
def ordersHandler (body : OrdersBody) (user : User) (st : Store) :
    Store × Response :=
  match body.items with
  | .missing => (st, ⟨400, .msg "Order items are required"⟩)
  | .notAnArray => (st, ⟨400, .msg "Order items are required"⟩)
  | .array [] => (st, ⟨400, .msg "Order items are required"⟩)
  | .array items =>
    let res := createOrder st
      { userId := user.id
        totalPrice := body.totalPrice
        status := some "pending"
        customerEmail := some user.email }
    let st2 := items.foldl
      (fun s it =>
        (createOrderItem s
          { orderId := res.2.id
            productId := it.productId
            quantity := it.quantity
            price := it.price }).1)
      res.1
    (st2, ⟨200, .order res.2⟩)

/-- The full `POST /api/orders` route: `authenticateToken` then the handler. -/
def postOrdersRoute (env : Env) (st : Store) (authHeader : Option String)
    (body : OrdersBody) : Store × Response :=
  runProtected env st authHeader (ordersHandler body)

/-! ### Client cart store (`client/src/lib/cart.ts`, zustand) -/

/-- A cart line item. `price` and `quantity` are JS numbers, modelled as `Rat`
and `Int`. -/
structure CartItem where
  id : String
  name : String
  price : Rat
  image : String
  quantity : Int
  deriving Repr, DecidableEq

/-- The argument of `addItem`: a `CartItem` without its quantity. -/
structure CartProd where
  id : String
  name : String
  price : Rat
  image : String
  deriving Repr, DecidableEq

/-- The zustand cart state: the line items plus the stored aggregates. -/
structure CartState where
  items : List CartItem
  itemCount : Int
  total : Rat
  deriving Repr, DecidableEq

/-- `newItems.reduce((sum, item) => sum + item.quantity, 0)`. -/
def calcCount (l : List CartItem) : Int :=
  l.foldl (fun s i => s + i.quantity) 0

/-- `newItems.reduce((sum, item) => sum + item.price * item.quantity, 0)`. -/
def calcTotal (l : List CartItem) : Rat :=
  l.foldl (fun s i => s + i.price * (i.quantity : Rat)) 0

/-- The initial cart state. -/
def emptyCart : CartState := ⟨[], 0, 0⟩

/-- `addItem`: if an item with the same id exists, increment its quantity by
1, otherwise append the item with quantity 1; recompute the aggregates. -/
def addItem (s : CartState) (item : CartProd) : CartState :=
  let isExisting := s.items.any (fun i => i.id == item.id)
  let newItems :=
    if isExisting then
      s.items.map (fun i =>
        if i.id == item.id then { i with quantity := i.quantity + 1 } else i)
    else
      s.items ++ [⟨item.id, item.name, item.price, item.image, 1⟩]
  ⟨newItems, calcCount newItems, calcTotal newItems⟩

/-- `removeItem`: drop the line with the given id; recompute the aggregates. -/
def removeItem (s : CartState) (id : String) : CartState :=
  let newItems := s.items.filter (fun i => i.id != id)
  ⟨newItems, calcCount newItems, calcTotal newItems⟩

/-- `updateQuantity`: a quantity ≤ 0 removes the item; otherwise set the
matching line's quantity and recompute the aggregates. -/
def updateQuantity (s : CartState) (id : String) (q : Int) : CartState :=
  if q ≤ 0 then removeItem s id
  else
    let newItems := s.items.map (fun i =>
      if i.id == id then { i with quantity := q } else i)
    ⟨newItems, calcCount newItems, calcTotal newItems⟩

/-- `clearCart`. -/
def clearCart (_ : CartState) : CartState := ⟨[], 0, 0⟩

/-- One cart store operation. -/
inductive CartOp where
  | add (item : CartProd)
  | remove (id : String)
  | update (id : String) (q : Int)
  | clear
  deriving Repr, DecidableEq

/-- Apply one cart operation. -/
def applyCartOp (s : CartState) : CartOp → CartState
  | .add item => addItem s item
  | .remove id => removeItem s id
  | .update id q => updateQuantity s id q
  | .clear => clearCart s

/-- Run a sequence of cart operations from the empty cart. -/
def runCart (ops : List CartOp) : CartState :=
  ops.foldl applyCartOp emptyCart

/-- The cart invariant: the stored `itemCount` and `total` agree with the line
items, line ids are pairwise distinct, and every quantity is at least 1. -/
def cartInv (s : CartState) : Prop :=
  s.itemCount = (s.items.map (fun i => i.quantity)).sum ∧
  s.total = (s.items.map (fun i => i.price * (i.quantity : Rat))).sum ∧
  (s.items.map (fun i => i.id)).Nodup ∧
  ∀ i ∈ s.items, 1 ≤ i.quantity

/-! ### Concrete fixtures used by the witnesses -/

/-- Environment whose token verification returns the token itself as the
embedded user id. -/
def envId : Env :=
  { verify := fun t => some t
    sign := fun s => s
    hash := fun s => s
    compare := fun a b => a == b }

/-- Environment whose token verification always throws and whose password
comparison always fails. -/
def envRejectAll : Env :=
  { verify := fun _ => none
    sign := fun s => s
    hash := fun s => s
    compare := fun _ _ => false }

/-- A non-admin user. -/
def alice : User := ⟨"u1", "alice", "alice@example.com", "hpw", "user"⟩

/-- An admin user. -/
def root0 : User := ⟨"u2", "boss", "boss@example.com", "hpw2", "admin"⟩

/-- A store holding the two users. -/
def st0 : Store := ⟨[alice, root0], [], [], [], 10⟩

/-- The empty store. -/
def emptyStore : Store := ⟨[], [], [], [], 0⟩

/-- A handler that reports success without touching the store. -/
def okHandler : User → Store → Store × Response :=
  fun _ s => (s, ⟨200, .msg "ok"⟩)

/-! ### Claims -/

/-- C3: the auth gate distinguishes three failure modes — (a) no token →
"Access token required"; (b) token the verifier rejects → "Invalid token";
(c) verified token whose user id matches no stored user → the same
"Invalid token" message — and in all three cases the response is produced at
the HTTP layer with the store untouched and the wrapped handler never
executed (the result is independent of the handler). -/
theorem authGate_failure_modes (env : Env) (st : Store)
    (authHeader : Option String) (handler : User → Store → Store × Response) :
    (extractToken authHeader = none →
      runProtected env st authHeader handler =
        (st, ⟨401, .msg "Access token required"⟩)) ∧
    (∀ t, extractToken authHeader = some t → env.verify t = none →
      runProtected env st authHeader handler = (st, ⟨403, .msg "Invalid token"⟩)) ∧
    (∀ t uid, extractToken authHeader = some t → env.verify t = some uid →
      getUser st uid = none →
      runProtected env st authHeader handler = (st, ⟨401, .msg "Invalid token"⟩)) := by
  refine ⟨?_, ?_, ?_⟩
  · intro h
    simp [runProtected, authenticateToken, h]
  · intro t ht hv
    simp [runProtected, authenticateToken, ht, hv]
  · intro t uid ht hv hu
    simp [runProtected, authenticateToken, ht, hv, hu]

/-- Witness for C3: the three failure modes at concrete inputs. -/
theorem authGate_failure_modes_witness :
    runProtected envId emptyStore none okHandler =
      (emptyStore, ⟨401, .msg "Access token required"⟩) ∧
    runProtected envRejectAll st0 (some "Bearer t0") okHandler =
      (st0, ⟨403, .msg "Invalid token"⟩) ∧
    runProtected envId st0 (some "Bearer ghost") okHandler =
      (st0, ⟨401, .msg "Invalid token"⟩) := by
  refine ⟨?_, ?_, ?_⟩
  · exact (authGate_failure_modes envId emptyStore none okHandler).1 rfl
  · exact (authGate_failure_modes envRejectAll st0 (some "Bearer t0")
      okHandler).2.1 "t0" (by decide) rfl
  · exact (authGate_failure_modes envId st0 (some "Bearer ghost")
      okHandler).2.2 "ghost" "ghost" (by decide) rfl (by decide)

/-- C9: on an admin-only route, once the auth gate has resolved a user whose
role is not "admin", the role gate answers 403 "Admin access required" with
the store untouched, for every wrapped handler (so the handler never runs and
the payload is irrelevant). -/
theorem roleGate_rejects_non_admin (env : Env) (st : Store)
    (authHeader : Option String) (u : User)
    (hauth : authenticateToken env st authHeader = .allow u)
    (hrole : u.role ≠ "admin") :
    ∀ handler, runAdminProtected env st authHeader handler =
      (st, ⟨403, .msg "Admin access required"⟩) := by
  intro handler
  simp [runAdminProtected, runProtected, hauth, hrole]

/-- Witness for C9: the non-admin user `alice` is rejected. -/
theorem roleGate_rejects_non_admin_witness :
    runAdminProtected envId st0 (some "Bearer u1") okHandler =
      (st0, ⟨403, .msg "Admin access required"⟩) :=
  roleGate_rejects_non_admin envId st0 (some "Bearer u1") alice (by decide)
    (by decide) okHandler

/-- C4: a login with an email matching no user and a login with an existing
email but a password failing the hash comparison produce the same response:
status 400 with body "Invalid credentials". -/
theorem login_no_user_enumeration (env : Env) (st : Store)
    (e1 p1 e2 p2 : String) (u : User)
    (h1 : getUserByEmail st e1 = none)
    (h2 : getUserByEmail st e2 = some u)
    (h3 : env.compare p2 u.password = false) :
    login env st e1 p1 = login env st e2 p2 ∧
    login env st e1 p1 = .err 400 "Invalid credentials" := by
  simp [login, h1, h2, h3]

/-- Witness for C4: nonexistent email vs. `alice` with a wrong password. -/
theorem login_no_user_enumeration_witness :
    login envRejectAll st0 "ghost@example.com" "pw1" =
      login envRejectAll st0 "alice@example.com" "wrong" ∧
    login envRejectAll st0 "ghost@example.com" "pw1" =
      .err 400 "Invalid credentials" :=
  login_no_user_enumeration envRejectAll st0 "ghost@example.com" "pw1"
    "alice@example.com" "wrong" alice (by decide) (by decide) rfl

/-- C5: a registration whose body passes schema validation and whose email
belongs to an existing user fails with the email-conflict message "User
already exists", with the store untouched — with no assumption on whether the
username is taken, so a request with both a taken email and a taken username
reports the email conflict. -/
theorem register_email_conflict_first (env : Env) (st : Store)
    (b : RegisterBody) (u : User)
    (hp : registerParse b = none)
    (he : getUserByEmail st b.email = some u) :
    register env st b = (st, .err 400 "User already exists") := by
  simp [register, hp, he]

/-- Witness for C5: both `alice`'s email and username are taken, and the
reported conflict is the email one. -/
theorem register_email_conflict_first_witness :
    register envId st0 ⟨"alice", "alice@example.com", "pw123456", "pw123456", none⟩ =
      (st0, .err 400 "User already exists") :=
  register_email_conflict_first envId st0
    ⟨"alice", "alice@example.com", "pw123456", "pw123456", none⟩ alice
    (by decide) (by decide)

/-- C6: a registration whose confirmation password differs from the password
fails schema validation (with the `confirmPassword` min-length message or the
"Passwords don't match" refinement message) and leaves the store unchanged —
no user row is created. -/
theorem register_mismatch_no_write (env : Env) (st : Store) (b : RegisterBody)
    (h : b.password ≠ b.confirmPassword) :
    (register env st b).1 = st ∧
    ((register env st b).2 = .err 400 minLenMsg ∨
     (register env st b).2 = .err 400 mismatchMsg) := by
  by_cases hlen : b.confirmPassword.length < 6
  · simp [register, registerParse, hlen]
  · simp [register, registerParse, hlen, h]

/-- Witness for C6: mismatched confirmation at a concrete body. -/
theorem register_mismatch_no_write_witness :
    (register envId st0 ⟨"bob", "bob@example.com", "pw123456", "pw123457", none⟩).1
      = st0 ∧
    ((register envId st0 ⟨"bob", "bob@example.com", "pw123456", "pw123457", none⟩).2
        = .err 400 minLenMsg ∨
     (register envId st0 ⟨"bob", "bob@example.com", "pw123456", "pw123457", none⟩).2
        = .err 400 mismatchMsg) :=
  register_mismatch_no_write envId st0
    ⟨"bob", "bob@example.com", "pw123456", "pw123457", none⟩ (by decide)

/-- C7: a product created through `createProduct` always carries rating
"0.0", reviewCount 0 and isActive true — whatever the caller-supplied
`rating`, `reviewCount`, `isActive` were — and the row appended to the store
is exactly the returned row, so the caller-supplied values are never
stored. -/
theorem createProduct_defaults (st : Store) (p : InsertProduct) :
    (createProduct st p).2.rating = some "0.0" ∧
    (createProduct st p).2.reviewCount = some 0 ∧
    (createProduct st p).2.isActive = some true ∧
    (createProduct st p).1.products = st.products ++ [(createProduct st p).2] := by
  simp [createProduct]

/-- C2: an order-placement request whose `items` field is missing, not an
array, or an empty array never changes the store, and — once the auth gate has
admitted the caller — is answered 400 "Order items are required", so no Order
or OrderItem row is created. -/
theorem orders_items_required (env : Env) (st : Store)
    (authHeader : Option String) (body : OrdersBody)
    (h : body.items = .missing ∨ body.items = .notAnArray ∨
         body.items = .array []) :
    (postOrdersRoute env st authHeader body).1 = st ∧
    ∀ u, authenticateToken env st authHeader = .allow u →
      postOrdersRoute env st authHeader body =
        (st, ⟨400, .msg "Order items are required"⟩) := by
  have hh : ∀ u s, ordersHandler body u s = (s, ⟨400, .msg "Order items are required"⟩) := by
    intro u s
    rcases h with h | h | h <;> simp [ordersHandler, h]
  constructor
  · unfold postOrdersRoute runProtected
    cases hb : authenticateToken env st authHeader with
    | reject s m => simp
    | allow u => simp [hh]
  · intro u hu
    simp [postOrdersRoute, runProtected, hu, hh]

/-- Witness for C2: an authenticated request with an empty items list. -/
theorem orders_items_required_witness :
    (postOrdersRoute envId st0 (some "Bearer u1") ⟨.array [], "25"⟩).1 = st0 ∧
    ∀ u, authenticateToken envId st0 (some "Bearer u1") = .allow u →
      postOrdersRoute envId st0 (some "Bearer u1") ⟨.array [], "25"⟩ =
        (st0, ⟨400, .msg "Order items are required"⟩) :=
  orders_items_required envId st0 (some "Bearer u1") ⟨.array [], "25"⟩
    (Or.inr (Or.inr rfl))

/-- The observable content of an order-item row: which order it references
and the product, quantity and price it carries (the generated id aside). -/
def itemProj (r : OrderItemRow) : String × String × Int × String :=
  (r.orderId, r.productId, r.quantity, r.price)

/-- The per-item loop of `POST /api/orders` only appends: it creates exactly
one OrderItem row per input item, in input order, each referencing `oid` and
carrying that item's product, quantity and price, and leaves every other
table unchanged. -/
theorem orderItemsLoop_spec (oid : String) (items : List ItemInput) (st : Store) :
    (items.foldl
        (fun s it =>
          (createOrderItem s
            { orderId := oid
              productId := it.productId
              quantity := it.quantity
              price := it.price }).1)
        st).users = st.users ∧
    (items.foldl
        (fun s it =>
          (createOrderItem s
            { orderId := oid
              productId := it.productId
              quantity := it.quantity
              price := it.price }).1)
        st).products = st.products ∧
    (items.foldl
        (fun s it =>
          (createOrderItem s
            { orderId := oid
              productId := it.productId
              quantity := it.quantity
              price := it.price }).1)
        st).orders = st.orders ∧
    (items.foldl
        (fun s it =>
          (createOrderItem s
            { orderId := oid
              productId := it.productId
              quantity := it.quantity
              price := it.price }).1)
        st).orderItems.map itemProj =
      st.orderItems.map itemProj ++
        items.map (fun it => (oid, it.productId, it.quantity, it.price)) := by
  induction items generalizing st with
  | nil => simp
  | cons a l ih =>
    simp only [List.foldl_cons]
    have h := ih ((createOrderItem st
      { orderId := oid
        productId := a.productId
        quantity := a.quantity
        price := a.price }).1)
    simp [createOrderItem, itemProj] at h ⊢
    exact ⟨h.1, h.2.1, h.2.2.1, h.2.2.2⟩

/-- C1: an authenticated order placement with a non-empty items list creates
exactly one Order row — owner the caller's id, status "pending",
customerEmail the caller's email, totalPrice the caller-supplied total — then
exactly one OrderItem row per input item, in input order, each referencing
the new order and carrying that item's productId, quantity and price; no
other table changes, and the response is the created Order alone (no items
attached). -/
theorem orders_creation (env : Env) (st : Store) (authHeader : Option String)
    (body : OrdersBody) (u : User) (items : List ItemInput)
    (hauth : authenticateToken env st authHeader = .allow u)
    (hitems : body.items = .array items) (hne : items ≠ []) :
    ∃ o,
      (postOrdersRoute env st authHeader body).2 = ⟨200, .order o⟩ ∧
      o.userId = u.id ∧ o.status = "pending" ∧
      o.customerEmail = some u.email ∧ o.totalPrice = body.totalPrice ∧
      (postOrdersRoute env st authHeader body).1.orders = st.orders ++ [o] ∧
      (postOrdersRoute env st authHeader body).1.users = st.users ∧
      (postOrdersRoute env st authHeader body).1.products = st.products ∧
      (postOrdersRoute env st authHeader body).1.orderItems.map itemProj =
        st.orderItems.map itemProj ++
          items.map (fun it => (o.id, it.productId, it.quantity, it.price)) := by
  cases items with
  | nil => exact absurd rfl hne
  | cons a l =>
    have hrun : postOrdersRoute env st authHeader body =
        ordersHandler body u st := by
      simp [postOrdersRoute, runProtected, hauth]
    rw [hrun]
    simp only [ordersHandler, hitems]
    have hloop := orderItemsLoop_spec
      (createOrder st
        { userId := u.id, totalPrice := body.totalPrice, status := some "pending",
          customerEmail := some u.email }).2.id (a :: l)
      (createOrder st
        { userId := u.id, totalPrice := body.totalPrice, status := some "pending",
          customerEmail := some u.email }).1
    refine ⟨(createOrder st
        { userId := u.id, totalPrice := body.totalPrice, status := some "pending",
          customerEmail := some u.email }).2, rfl, ?_, ?_, ?_, ?_, ?_, ?_, ?_, ?_⟩
    · simp [createOrder]
    · simp [createOrder]
    · simp [createOrder]
    · simp [createOrder]
    · rw [hloop.2.2.1]
      simp [createOrder]
    · rw [hloop.1]
      simp [createOrder]
    · rw [hloop.2.1]
      simp [createOrder]
    · rw [hloop.2.2.2]
      simp [createOrder]

/-- Witness for C1: `alice` orders two items with totalPrice 25. -/
theorem orders_creation_witness :
    ∃ o,
      (postOrdersRoute envId st0 (some "Bearer u1")
          ⟨.array [⟨"p1", 2, "10"⟩, ⟨"p2", 1, "5"⟩], "25"⟩).2 = ⟨200, .order o⟩ ∧
      o.userId = alice.id ∧ o.status = "pending" ∧
      o.customerEmail = some alice.email ∧ o.totalPrice = "25" ∧
      (postOrdersRoute envId st0 (some "Bearer u1")
          ⟨.array [⟨"p1", 2, "10"⟩, ⟨"p2", 1, "5"⟩], "25"⟩).1.orders =
        st0.orders ++ [o] ∧
      (postOrdersRoute envId st0 (some "Bearer u1")
          ⟨.array [⟨"p1", 2, "10"⟩, ⟨"p2", 1, "5"⟩], "25"⟩).1.users = st0.users ∧
      (postOrdersRoute envId st0 (some "Bearer u1")
          ⟨.array [⟨"p1", 2, "10"⟩, ⟨"p2", 1, "5"⟩], "25"⟩).1.products =
        st0.products ∧
      (postOrdersRoute envId st0 (some "Bearer u1")
          ⟨.array [⟨"p1", 2, "10"⟩, ⟨"p2", 1, "5"⟩], "25"⟩).1.orderItems.map
          itemProj =
        st0.orderItems.map itemProj ++
          ([⟨"p1", 2, "10"⟩, ⟨"p2", 1, "5"⟩] : List ItemInput).map
            (fun it => (o.id, it.productId, it.quantity, it.price)) :=
  orders_creation envId st0 (some "Bearer u1")
    ⟨.array [⟨"p1", 2, "10"⟩, ⟨"p2", 1, "5"⟩], "25"⟩ alice
    [⟨"p1", 2, "10"⟩, ⟨"p2", 1, "5"⟩] (by decide) rfl (by decide)

/-- The search condition holds exactly when the text matches the name or a
present description, case-insensitively. -/
theorem searchCond_iff (s : String) (p : Product) :
    searchCond s p = true ↔
      (containsCI p.name s = true ∨
       ∃ d, p.description = some d ∧ containsCI d s = true) := by
  unfold searchCond
  cases hd : p.description <;> simp [hd]

/-- C8: the product listing returns exactly the products that are active and
satisfy every provided filter — exact category match, case-insensitive
substring match of the search text against name or description, price ≥
minPrice, price ≤ maxPrice — while omitted filters are not applied (the
hypotheses exclude empty-string filters, which the route never forwards). -/
theorem getProducts_filters (st : Store) (f : ProductFilters) (p : Product)
    (hc : f.categoryId ≠ some "") (hs : f.search ≠ some "") :
    p ∈ getProducts st f ↔
      p ∈ st.products ∧ p.isActive = some true ∧
      (∀ cid, f.categoryId = some cid → p.categoryId = some cid) ∧
      (∀ s, f.search = some s →
        (containsCI p.name s = true ∨
         ∃ d, p.description = some d ∧ containsCI d s = true)) ∧
      (∀ m, f.minPrice = some m → m ≤ p.price) ∧
      (∀ m, f.maxPrice = some m → p.price ≤ m) := by
  obtain ⟨fc, fs, fm, fM⟩ := f
  rcases fc with _ | cid <;> rcases fs with _ | s <;>
    rcases fm with _ | m <;> rcases fM with _ | M <;>
      simp_all [getProducts, List.mem_filter, productConditions, searchCond_iff,
        and_assoc]

/-- An active product priced inside [100, 200]. -/
def prodA : Product :=
  ⟨"pr1", "Widget", some "A fine widget", 150, "img1", none, 5,
   some "0.0", some 0, some true⟩

/-- An active product priced outside [100, 200]. -/
def prodB : Product :=
  ⟨"pr2", "Gadget", none, 80, "img2", none, 3, some "0.0", some 0, some true⟩

/-- A catalog store holding the two products. -/
def stCat : Store := ⟨[], [prodA, prodB], [], [], 0⟩

/-- The filter set of `GET /products?minPrice=100&maxPrice=200`. -/
def fPrice : ProductFilters := ⟨none, none, some 100, some 200⟩

/-- Witness for C8: with minPrice=100 and maxPrice=200, the 150-priced
product is in the result. -/
theorem getProducts_filters_witness : prodA ∈ getProducts stCat fPrice :=
  (getProducts_filters stCat fPrice prodA (by decide) (by decide)).mpr
    ⟨by simp [stCat], rfl,
     by intro cid h; simp [fPrice] at h,
     by intro s h; simp [fPrice] at h,
     by intro m h; simp [fPrice] at h; rw [← h]; norm_num [prodA],
     by intro m h; simp [fPrice] at h; rw [← h]; norm_num [prodA]⟩

/-- The stored count aggregate equals the sum of the quantities. -/
theorem foldl_count (l : List CartItem) (a : Int) :
    l.foldl (fun s i => s + i.quantity) a =
      a + (l.map (fun i => i.quantity)).sum := by
  induction l generalizing a with
  | nil => simp
  | cons x xs ih => simp [ih, add_assoc]

/-- `calcCount` computes the sum of the quantities. -/
theorem calcCount_eq (l : List CartItem) :
    calcCount l = (l.map (fun i => i.quantity)).sum := by
  rw [calcCount, foldl_count]
  simp

/-- The stored total aggregate equals the sum of price × quantity. -/
theorem foldl_total (l : List CartItem) (a : Rat) :
    l.foldl (fun s i => s + i.price * (i.quantity : Rat)) a =
      a + (l.map (fun i => i.price * (i.quantity : Rat))).sum := by
  induction l generalizing a with
  | nil => simp
  | cons x xs ih => simp [ih, add_assoc]

/-- `calcTotal` computes the sum of price × quantity. -/
theorem calcTotal_eq (l : List CartItem) :
    calcTotal l = (l.map (fun i => i.price * (i.quantity : Rat))).sum := by
  rw [calcTotal, foldl_total]
  simp

/-- A state whose aggregates are recomputed from its items satisfies the
aggregate equations; the structural parts remain to be checked. -/
theorem cartInv_mk (l : List CartItem)
    (hnd : (l.map (fun i => i.id)).Nodup) (hq : ∀ i ∈ l, 1 ≤ i.quantity) :
    cartInv ⟨l, calcCount l, calcTotal l⟩ :=
  ⟨calcCount_eq l, calcTotal_eq l, hnd, hq⟩

/-- A map that does not touch ids keeps the id list unchanged. -/
theorem ids_map_of_id_preserving (l : List CartItem) (g : CartItem → CartItem)
    (h : ∀ i, (g i).id = i.id) :
    (l.map g).map (fun i => i.id) = l.map (fun i => i.id) := by
  induction l with
  | nil => rfl
  | cons x xs ih => simp [h, ih]

/-- `addItem` preserves the cart invariant. -/
theorem cartInv_addItem (s : CartState) (item : CartProd) (h : cartInv s) :
    cartInv (addItem s item) := by
  obtain ⟨-, -, hnd, hq⟩ := h
  unfold addItem
  by_cases hex : s.items.any (fun i => i.id == item.id)
  · simp only [hex, if_true]
    apply cartInv_mk
    · rw [ids_map_of_id_preserving]
      · exact hnd
      · intro i
        by_cases hb : i.id == item.id <;> simp [hb]
    · intro j hj
      obtain ⟨i, hi, rfl⟩ := List.mem_map.mp hj
      have := hq i hi
      by_cases hb : i.id == item.id <;> simp [hb] <;> omega
  · simp only [hex, if_false, Bool.false_eq_true]
    apply cartInv_mk
    · simp only [List.map_append, List.map_cons, List.map_nil]
      rw [List.nodup_append]
      refine ⟨hnd, List.nodup_singleton _, ?_⟩
      simp only [List.any_eq_true, not_exists, not_and, beq_iff_eq] at hex
      intro x hx hmem
      obtain ⟨i, hi, hid⟩ := List.mem_map.mp hx
      simp only [List.mem_singleton] at hmem
      exact hex i hi (by rw [hid, hmem])
    · intro j hj
      rcases List.mem_append.mp hj with hj | hj
      · exact hq j hj
      · simp only [List.mem_singleton] at hj
        rw [hj]

/-- `removeItem` preserves the cart invariant. -/
theorem cartInv_removeItem (s : CartState) (id : String) (h : cartInv s) :
    cartInv (removeItem s id) := by
  obtain ⟨-, -, hnd, hq⟩ := h
  unfold removeItem
  apply cartInv_mk
  · exact ((List.filter_sublist _).map _).nodup hnd
  · intro j hj
    exact hq j (List.mem_of_mem_filter hj)

/-- `updateQuantity` preserves the cart invariant. -/
theorem cartInv_updateQuantity (s : CartState) (id : String) (q : Int)
    (h : cartInv s) : cartInv (updateQuantity s id q) := by
  unfold updateQuantity
  by_cases hle : q ≤ 0
  · simpa [hle] using cartInv_removeItem s id h
  · obtain ⟨-, -, hnd, hq⟩ := h
    simp only [hle, if_false]
    apply cartInv_mk
    · rw [ids_map_of_id_preserving]
      · exact hnd
      · intro i
        by_cases hb : i.id == id <;> simp [hb]
    · intro j hj
      obtain ⟨i, hi, rfl⟩ := List.mem_map.mp hj
      have := hq i hi
      by_cases hb : i.id == id <;> simp [hb] <;> omega

/-- `clearCart` establishes the cart invariant. -/
theorem cartInv_clearCart (s : CartState) : cartInv (clearCart s) := by
  simp [clearCart, cartInv]

/-- Every single cart operation preserves the invariant. -/
theorem cartInv_applyCartOp (s : CartState) (op : CartOp) (h : cartInv s) :
    cartInv (applyCartOp s op) := by
  cases op with
  | add item => exact cartInv_addItem s item h
  | remove id => exact cartInv_removeItem s id h
  | update id q => exact cartInv_updateQuantity s id q h
  | clear => exact cartInv_clearCart s

/-- C10: after any sequence of cart operations from the empty cart, the
stored `itemCount` equals the sum of the quantities, the stored `total`
equals the sum of price × quantity, no two line items share an id (adding an
existing id increments its quantity instead of duplicating the line), and
every quantity is at least 1 (`updateQuantity` with quantity ≤ 0 removes the
item). -/
theorem cart_invariant (ops : List CartOp) : cartInv (runCart ops) := by
  suffices h : ∀ s, cartInv s → cartInv (ops.foldl applyCartOp s) from
    h emptyCart (by simp [cartInv, emptyCart])
  induction ops with
  | nil => intro s hs; exact hs
  | cons op rest ih =>
    intro s hs
    simp only [List.foldl_cons]
    exact ih _ (cartInv_applyCartOp s op hs)

end Ecomfy
